import Mathlib

/-!
Verification of the ticket registration / check-in subsystem of the
ISO_Event_Registration backend (FastAPI + Supabase).

Shallow embedding: the Supabase datastore is a `SysState` record (tiers,
attendees, guests, storage object keys); handlers become pure functions from
state to result × state; money is `ℚ`; timestamps are `Nat`; fallible
external calls (QR upload, row insert) are driven by explicit fault
parameters in `Env`.  Definitions follow the Python source in
`app/routers/attendees.py`, `app/routers/pricing.py` and
`app/utils/supabase_client.py`.
-/

namespace ISOReg

/-- `food_option` column: `Literal["with_food", "without_food"]`. -/
inductive FoodOption
  | with_food
  | without_food
deriving DecidableEq, Repr

/-- `payment_mode` column: `Literal["cash", "zelle"]`. -/
inductive PaymentMode
  | cash
  | zelle
deriving DecidableEq, Repr

/-- Row of the `ticket_pricing` table. -/
structure PricingTier where
  id : Nat
  event_id : String
  quantity_from : Nat
  quantity_to : Nat
  price_per_ticket : ℚ
  food_option : FoodOption
  is_active : Bool
deriving DecidableEq, Repr

/-- Row of the `attendees` (or `guests`) table.  `is_guest` is the marker the
client layer attaches to rows served from the guests table. -/
structure AttendeeRow where
  id : Nat
  name : String
  email : String
  phone : String
  payment_mode : PaymentMode
  food_option : FoodOption
  ticket_quantity : Nat
  total_price : ℚ
  event_id : String
  created_by : Option String
  qr_code_id : String
  qr_code_url : Option String
  created_at : Nat
  is_checked_in : Bool
  checked_in_at : Option Nat
  is_guest : Bool
deriving DecidableEq, Repr

/-- The datastore plus the `qr-codes` storage bucket.  `storage` is the list
of object keys present in the bucket; `nextId` / `nextTierId` model the
DB-assigned primary keys. -/
structure SysState where
  tiers : List PricingTier
  attendees : List AttendeeRow
  guests : List AttendeeRow
  storage : List String
  nextId : Nat
  nextTierId : Nat
deriving DecidableEq, Repr

/-! ### Storage layer (`SupabaseClient.upload_qr_code` / `delete_qr_code`) -/

/-- `upload_qr_code` uploads under `file_path = f"qr_codes/{qr_code_id}.png"`. -/
def uploadPath (qr_code_id : String) : String :=
  "qr_codes/" ++ qr_code_id ++ ".png"

/-- `delete_qr_code` removes `file_path = f"{qr_code_id}.png"` (note: no
`qr_codes/` folder prefix in the source). -/
def deletePath (qr_code_id : String) : String :=
  qr_code_id ++ ".png"

/-- `get_public_url` of an object key in the `qr-codes` bucket. -/
def publicUrl (file_path : String) : String :=
  "public/qr-codes/" ++ file_path

/-- `SupabaseClient.upload_qr_code`: stores the object and returns its public
URL. -/
def upload_qr_code (storage : List String) (qr_code_id : String) :
    List String × String :=
  (storage ++ [uploadPath qr_code_id], publicUrl (uploadPath qr_code_id))

/-- `SupabaseClient.delete_qr_code`: `remove([f"{qr_code_id}.png"])` deletes
that object key from the bucket (removing an absent key is a no-op). -/
def delete_qr_code (storage : List String) (qr_code_id : String) :
    List String :=
  storage.filter (fun p => p ≠ deletePath qr_code_id)

/-! ### Lookup and check-in (`SupabaseClient` + `checkin_attendee` route) -/

/-- The fields written by `update_attendee_checkin`. -/
def checkinData (now : Nat) (r : AttendeeRow) : AttendeeRow :=
  { r with is_checked_in := true, checked_in_at := some now }

/-- `SupabaseClient.get_attendee_by_qr_id`: first check the `attendees`
table; when absent there, fall back to the `guests` table, marking the
returned row with `is_guest = true`. -/
def get_attendee_by_qr_id (s : SysState) (qr : String) : Option AttendeeRow :=
  match s.attendees.find? (fun r => r.qr_code_id == qr) with
  | some r => some r
  | none =>
    match s.guests.find? (fun r => r.qr_code_id == qr) with
    | some g => some { g with is_guest := true }
    | none => none

/-- `SupabaseClient.update_attendee_checkin`: an unconditional
`update({is_checked_in: true, checked_in_at: now}).eq("qr_code_id", qr)` on
`attendees`; when it matched no row, the same update on `guests` (returned
guest rows get the `is_guest` marker).  Returns the first updated row. -/
def update_attendee_checkin (now : Nat) (s : SysState) (qr : String) :
    Option AttendeeRow × SysState :=
  let updatedA := s.attendees.map
    (fun r => if r.qr_code_id == qr then checkinData now r else r)
  match updatedA.find? (fun r => r.qr_code_id == qr) with
  | some r => (some r, { s with attendees := updatedA })
  | none =>
    let updatedG := s.guests.map
      (fun r => if r.qr_code_id == qr then checkinData now r else r)
    match updatedG.find? (fun r => r.qr_code_id == qr) with
    | some g => (some { g with is_guest := true }, { s with guests := updatedG })
    | none => (none, s)

/-- Body of the `CheckInResponse` model. -/
structure CheckInResponse where
  success : Bool
  attendee : AttendeeRow
  message : String
deriving DecidableEq, Repr

/-- The `POST /checkin/{qr_id}` handler: look up the row; 404 when absent;
non-error "already checked in" result when `is_checked_in` is set; otherwise
apply the check-in update (the error value is the HTTP status code). -/
def checkin_attendee (now : Nat) (s : SysState) (qr : String) :
    Except Nat CheckInResponse × SysState :=
  match get_attendee_by_qr_id s qr with
  | none => (.error 404, s)
  | some att =>
    if att.is_checked_in then
      (.ok ⟨false, att, "Attendee already checked in"⟩, s)
    else
      match update_attendee_checkin now s qr with
      | (none, s1) => (.error 500, s1)
      | (some upd, s1) => (.ok ⟨true, upd, "Check-in successful"⟩, s1)

/-! ### Pricing resolution (register_attendee lines 727-787, pricing router) -/

/-- Error outcomes of the registration handler, tagged by source. -/
inductive RegError
  | noPricingTiers      -- 400 "No pricing tiers found for this event"
  | noTierForQuantity   -- 400 "No pricing tier found for the specified quantity"
  | prepareFailed       -- 500, raised while generating/uploading QR codes
  | commitFailed        -- 500, raised while inserting attendee rows
  | internalError       -- generic 500
deriving DecidableEq, Repr

/-- The `detail` string of the pricing HTTPExceptions in the source. -/
def regErrorDetail : RegError → String
  | .noPricingTiers => "No pricing tiers found for this event"
  | .noTierForQuantity => "No pricing tier found for the specified quantity"
  | .prepareFailed => "Failed to prepare ticket"
  | .commitFailed => "Failed to create registration records. Please try again."
  | .internalError => "Failed to register attendee"

/-- Ordering used by the `order("quantity_from")` clause of the tier query. -/
def tierFromLe (a b : PricingTier) : Prop :=
  a.quantity_from ≤ b.quantity_from

instance : DecidableRel tierFromLe := fun a b =>
  inferInstanceAs (Decidable (a.quantity_from ≤ b.quantity_from))

instance : IsTotal PricingTier tierFromLe :=
  ⟨fun a b => Nat.le_total a.quantity_from b.quantity_from⟩

instance : IsTrans PricingTier tierFromLe :=
  ⟨fun _ _ _ hab hbc => le_trans hab hbc⟩

/-- The tier query of `register_attendee`:
`table("ticket_pricing").eq("event_id", eid).eq("is_active", True)
.eq("food_option", fo).order("quantity_from")`. -/
def fetchActiveTiers (db : List PricingTier) (eid : String) (fo : FoodOption) :
    List PricingTier :=
  List.insertionSort tierFromLe
    (db.filter (fun t => t.event_id == eid && t.is_active && t.food_option == fo))

/-- Loop body condition: the requested quantity lies in the tier's inclusive
`[quantity_from, quantity_to]` range. -/
def inRange (t : PricingTier) (qty : Nat) : Bool :=
  t.quantity_from ≤ qty && qty ≤ t.quantity_to

/-- The tier-selection loop of `register_attendee`: walk the ordered tiers and
take the first one whose range contains the quantity and whose `food_option`
matches (rows failing either test are skipped, as in the source loop that
only breaks after both nested `if`s pass). -/
def findTier : List PricingTier → Nat → FoodOption → Option PricingTier
  | [], _, _ => none
  | t :: rest, qty, fo =>
    if inRange t qty && t.food_option == fo then some t
    else findTier rest qty fo

/-- The flat $1/ticket surcharge added when `payment_mode == "zelle"`. -/
def surchargeOf (pm : PaymentMode) : ℚ :=
  if pm = PaymentMode.zelle then 1 else 0

/-- The pricing block of `register_attendee`: empty tier query → 400
"No pricing tiers found for this event"; no matching tier → 400
"No pricing tier found for the specified quantity"; otherwise the tier price
plus the zelle surcharge. -/
def resolvePrice (db : List PricingTier) (eid : String) (fo : FoodOption)
    (pm : PaymentMode) (qty : Nat) : Except RegError ℚ :=
  let tiers := fetchActiveTiers db eid fo
  if tiers.isEmpty then .error .noPricingTiers
  else
    match findTier tiers qty fo with
    | some t => .ok (t.price_per_ticket + surchargeOf pm)
    | none => .error .noTierForQuantity

/-! ### Registration (`register_attendee`, lines 789-916) -/

/-- The validated `AttendeeCreate` request body. -/
structure RegRequest where
  name : String
  email : String
  phone : String
  payment_mode : PaymentMode
  food_option : FoodOption
  ticket_quantity : Nat
deriving DecidableEq, Repr

/-- Nondeterminism of one request: the QR code generated for each 1-based
ticket number, and fault injection for the storage upload of ticket `k`
(1-based) and the row insert of record `i` (0-based, as in the source's
`enumerate`). `now` is the request's wall-clock time. -/
structure Env where
  codes : Nat → String
  uploadOk : Nat → Bool
  insertOk : Nat → Bool
  now : Nat

/-- Email normalisation applied in the prepared record:
`attendee.email.lower().strip()`. -/
def normEmail (email : String) : String :=
  email.toLower.trim

/-- One prepared attendee record (`attendee_data` dict): each record
represents 1 ticket at the per-ticket price; `id` is a placeholder until the
datastore assigns one. -/
def mkRecord (req : RegRequest) (eid : String) (creator : Option String)
    (now : Nat) (unitPrice : ℚ) (code url : String) : AttendeeRow :=
  { id := 0
    name := req.name
    email := normEmail req.email
    phone := req.phone
    payment_mode := req.payment_mode
    food_option := req.food_option
    ticket_quantity := 1
    total_price := unitPrice
    event_id := eid
    created_by := creator
    qr_code_id := code
    qr_code_url := some url
    created_at := now
    is_checked_in := false
    checked_in_at := none
    is_guest := false }

/-- The compensating cleanup loop: `delete_qr_code` for every prepared
record's code. -/
def cleanupQrCodes (records : List AttendeeRow) (storage : List String) :
    List String :=
  records.foldl (fun st r => delete_qr_code st r.qr_code_id) storage

/-- Step 1 of `register_attendee` over the remaining 1-based ticket numbers:
generate the code, upload its image, accumulate the prepared record; on an
upload failure run the cleanup loop over the records prepared so far and
fail. -/
def prepareGo (env : Env) (mk : String → String → AttendeeRow) :
    List Nat → List AttendeeRow → List String →
    Option (List AttendeeRow) × List String
  | [], acc, st => (some acc, st)
  | k :: rest, acc, st =>
    if env.uploadOk k then
      let code := env.codes k
      let (st1, url) := upload_qr_code st code
      prepareGo env mk rest (acc ++ [mk code url]) st1
    else
      (none, cleanupQrCodes acc st)

/-- `SupabaseClient.create_attendee`: insert the row; the datastore assigns
the primary key. -/
def create_attendee (table : List AttendeeRow) (nextId : Nat)
    (row : AttendeeRow) : List AttendeeRow × Nat × AttendeeRow :=
  let r := { row with id := nextId }
  (table ++ [r], nextId + 1, r)

/-- `SupabaseClient.delete_attendee`: delete the row with the given id. -/
def delete_attendee (table : List AttendeeRow) (attendee_id : Nat) :
    List AttendeeRow :=
  table.filter (fun r => r.id ≠ attendee_id)

/-- Step 2 of `register_attendee` over the `enumerate`d records: insert each;
on a failure at record `i` delete every row already created and fail. -/
def commitGo (env : Env) :
    List (Nat × AttendeeRow) → List AttendeeRow → List AttendeeRow → Nat →
    Option (List AttendeeRow) × List AttendeeRow × Nat
  | [], created, table, nid => (some created, table, nid)
  | (i, row) :: rest, created, table, nid =>
    if env.insertOk i then
      let (table1, nid1, r) := create_attendee table nid row
      commitGo env rest (created ++ [r]) table1 nid1
    else
      (none, created.foldl (fun t c => delete_attendee t c.id) table, nid)

/-- The `POST /register` handler (email delivery in step 3 is fire-and-forget
and does not touch the state).  On success the response is the first created
row overridden with the aggregate quantity and total price and with
`qr_code_id = ""`, `qr_code_url = None`. -/
def register (env : Env) (eid : String) (creator : Option String)
    (req : RegRequest) (s : SysState) :
    Except RegError AttendeeRow × SysState :=
  match resolvePrice s.tiers eid req.food_option req.payment_mode
      req.ticket_quantity with
  | .error e => (.error e, s)
  | .ok price_per_ticket =>
    let n := req.ticket_quantity
    let total_price : ℚ := price_per_ticket * n
    let unitPrice : ℚ := total_price / n
    let mk := fun code url => mkRecord req eid creator env.now unitPrice code url
    match prepareGo env mk (List.range' 1 n) [] s.storage with
    | (none, st1) => (.error .prepareFailed, { s with storage := st1 })
    | (some records, st1) =>
      match commitGo env records.enum [] s.attendees s.nextId with
      | (none, table1, nid1) =>
        let st2 := cleanupQrCodes records st1
        (.error .commitFailed,
         { s with attendees := table1, nextId := nid1, storage := st2 })
      | (some created, table1, nid1) =>
        match created with
        | [] =>
          (.error .internalError,
           { s with attendees := table1, nextId := nid1, storage := st1 })
        | first :: _ =>
          let summary :=
            { first with
              ticket_quantity := n
              total_price := total_price
              qr_code_id := ""
              qr_code_url := none }
          (.ok summary,
           { s with attendees := table1, nextId := nid1, storage := st1 })

/-! ### Tier creation (`create_pricing_tier`, pricing.py lines 149-200) -/

/-- `TicketPricingCreate` request body (the model has no `food_option` or
`is_active` field; those columns take their datastore defaults on insert). -/
structure TierCreate where
  event_id : String
  quantity_from : Nat
  quantity_to : Nat
  price_per_ticket : ℚ
deriving DecidableEq, Repr

/-- `POST /admin/tiers`: fetch all tiers of the event; reject with 400 when
the request's range overlaps any of them; otherwise insert the new tier
(its `food_option` / `is_active` come from the datastore defaults `dfFood` /
`dfActive`).  The error value is the HTTP status code. -/
def newTierOf (s : SysState) (req : TierCreate) (dfFood : FoodOption)
    (dfActive : Bool) : PricingTier :=
  { id := s.nextTierId
    event_id := req.event_id
    quantity_from := req.quantity_from
    quantity_to := req.quantity_to
    price_per_ticket := req.price_per_ticket
    food_option := dfFood
    is_active := dfActive }

def create_pricing_tier (dfFood : FoodOption) (dfActive : Bool)
    (s : SysState) (req : TierCreate) : Except Nat PricingTier × SysState :=
  let existing := s.tiers.filter (fun t => t.event_id == req.event_id)
  if existing.any (fun t =>
      req.quantity_from ≤ t.quantity_to && req.quantity_to ≥ t.quantity_from)
  then (.error 400, s)
  else
    (.ok (newTierOf s req dfFood dfActive),
     { s with tiers := s.tiers ++ [newTierOf s req dfFood dfActive],
              nextTierId := s.nextTierId + 1 })

/-- Two tiers of the same event and food option never have overlapping
inclusive quantity ranges. -/
def pairNoOverlap (a b : PricingTier) : Prop :=
  a.event_id = b.event_id → a.food_option = b.food_option →
    ¬(a.quantity_from ≤ b.quantity_to ∧ b.quantity_from ≤ a.quantity_to)

/-- The non-overlap invariant over the whole `ticket_pricing` table. -/
def TiersInvariant (tiers : List PricingTier) : Prop :=
  List.Pairwise pairNoOverlap tiers

/-! ### Volunteer leaderboard (`get_volunteer_leaderboard`, lines 1144-1156) -/

/-- One leaderboard entry before ranking. -/
structure LBEntry where
  volunteer_id : String
  tickets_sold : Nat
deriving DecidableEq, Repr

/-- Descending order on tickets sold, the key of
`leaderboard_data.sort(key=..., reverse=True)`. -/
def lbRel (a b : LBEntry) : Prop :=
  b.tickets_sold ≤ a.tickets_sold

instance : DecidableRel lbRel := fun a b =>
  inferInstanceAs (Decidable (b.tickets_sold ≤ a.tickets_sold))

instance : IsTotal LBEntry lbRel :=
  ⟨fun a b => (Nat.le_total b.tickets_sold a.tickets_sold).imp id id⟩

instance : IsTrans LBEntry lbRel :=
  ⟨fun _ _ _ hab hbc => le_trans hbc hab⟩

instance : IsRefl LBEntry lbRel :=
  ⟨fun a => Nat.le_refl a.tickets_sold⟩

/-- The stable descending sort of the leaderboard (Python `list.sort` is
stable; `reverse=True` flips the comparison, not the output). -/
def lbSort (l : List LBEntry) : List LBEntry :=
  List.insertionSort lbRel l

/-- The rank-assignment loop: `current_rank = 1; for i, v in enumerate(...):
if i > 0 and v.tickets_sold != prev.tickets_sold: current_rank = i + 1;
v.rank = current_rank`.  `i` is the 0-based index of the next entry, `cur`
the running rank, `prev` the previous entry's ticket count. -/
def assignRanksAux : Nat → Nat → Option Nat → List LBEntry →
    List (LBEntry × Nat)
  | _, _, _, [] => []
  | i, cur, prev, e :: rest =>
    let r :=
      match prev with
      | none => cur
      | some p => if e.tickets_sold ≠ p then i + 1 else cur
    (e, r) :: assignRanksAux (i + 1) r (some e.tickets_sold) rest

/-- Rank assignment over an already sorted list. -/
def assignRanks (l : List LBEntry) : List (LBEntry × Nat) :=
  assignRanksAux 0 1 none l

/-- Sort descending by tickets sold, then assign ranks with shared ranks on
ties. -/
def leaderboardRanks (l : List LBEntry) : List (LBEntry × Nat) :=
  assignRanks (lbSort l)

/-! ### Reporting reads (`get_attendees` / `get_event_stats`) -/

/-- An error raised by a datastore query. -/
structure DbError where
  msg : String
deriving DecidableEq, Repr

/-- The dict returned by `get_event_stats`.  The fallback dict of its
`except` branch omits the ticket/revenue keys, hence the `Option` fields. -/
structure EventStatsDict where
  total_registered : Nat
  total_checked_in : Nat
  checked_in_percentage : ℚ
  total_tickets_sold : Option Nat
  total_revenue : Option ℚ
  revenue_cash : Option ℚ
  revenue_zelle : Option ℚ
  recent_checkins : List AttendeeRow
deriving DecidableEq, Repr

/-- Python `round(x, 2)` (ties modelled as round-half-up on `ℚ`). -/
def roundTo2 (q : ℚ) : ℚ :=
  ((round (q * 100) : ℤ) : ℚ) / 100

/-- `order("checked_in_at", desc=True)` of the recent-check-ins query. -/
def checkedAtGe (a b : AttendeeRow) : Prop :=
  b.checked_in_at.getD 0 ≤ a.checked_in_at.getD 0

instance : DecidableRel checkedAtGe := fun a b =>
  inferInstanceAs (Decidable (b.checked_in_at.getD 0 ≤ a.checked_in_at.getD 0))

/-- `SupabaseClient.get_event_stats`: aggregate the `attendees` table; any
query error is caught and replaced by the fallback dict
`{total_registered: 0, total_checked_in: 0, checked_in_percentage: 0,
recent_checkins: []}`. -/
def get_event_stats (q : Except DbError (List AttendeeRow)) : EventStatsDict :=
  match q with
  | .error _ =>
    { total_registered := 0
      total_checked_in := 0
      checked_in_percentage := 0
      total_tickets_sold := none
      total_revenue := none
      revenue_cash := none
      revenue_zelle := none
      recent_checkins := [] }
  | .ok rows =>
    let total_registered := rows.length
    let total_checked_in := (rows.filter (fun r => r.is_checked_in)).length
    let pct : ℚ :=
      if 0 < total_registered then
        (total_checked_in : ℚ) / (total_registered : ℚ) * 100
      else 0
    let total_tickets_sold := (rows.map (fun r => r.ticket_quantity)).sum
    let total_revenue := (rows.map (fun r => r.total_price)).sum
    let revenue_cash :=
      ((rows.filter (fun r => r.payment_mode == PaymentMode.cash)).map
        (fun r => r.total_price)).sum
    let revenue_zelle :=
      ((rows.filter (fun r => r.payment_mode == PaymentMode.zelle)).map
        (fun r => r.total_price)).sum
    let recent :=
      (List.insertionSort checkedAtGe
        (rows.filter (fun r => r.is_checked_in))).take 5
    { total_registered := total_registered
      total_checked_in := total_checked_in
      checked_in_percentage := roundTo2 pct
      total_tickets_sold := some total_tickets_sold
      total_revenue := some (roundTo2 total_revenue)
      revenue_cash := some (roundTo2 revenue_cash)
      revenue_zelle := some (roundTo2 revenue_zelle)
      recent_checkins := recent }

/-- Row of the `users` table, as selected by the enrichment query. -/
structure UserRow where
  id : String
  full_name : Option String
  email : Option String
  team_role : Option String
deriving DecidableEq, Repr

/-- Grouped per-person listing entry: the base attendee row plus the fields
`_group_attendees_by_person` adds and the enrichment's volunteer columns. -/
structure GroupedAttendee where
  base : AttendeeRow
  total_tickets_per_person : Nat
  total_registrations : Nat
  current_tickets : Nat
  total_cash_amount : ℚ
  total_zelle_amount : ℚ
  cash_registrations : Nat
  zelle_registrations : Nat
  with_food_registrations : Nat
  without_food_registrations : Nat
  checked_in_registrations : Nat
  all_registrations : List AttendeeRow
  volunteer_name : Option String
  volunteer_email : Option String
  volunteer_team_role : Option String
deriving DecidableEq, Repr

/-- `person_key = f"{name.lower()}_{email.lower()}"`. -/
def personKey (r : AttendeeRow) : String :=
  r.name.toLower ++ "_" ++ r.email.toLower

/-- First-occurrence deduplication over a running `seen` set, matching the
insertion order of a Python dict. -/
def dedupFirstAux (seen : List String) : List String → List String
  | [] => []
  | k :: rest =>
    if k ∈ seen then dedupFirstAux seen rest
    else k :: dedupFirstAux (k :: seen) rest

def dedupFirst (l : List String) : List String :=
  dedupFirstAux [] l

/-- The search branch's `seen_ids` deduplication of combined query rows. -/
def dedupByIdAux (seen : List Nat) : List AttendeeRow → List AttendeeRow
  | [] => []
  | r :: rest =>
    if r.id ∈ seen then dedupByIdAux seen rest
    else r :: dedupByIdAux (r.id :: seen) rest

def dedupById (l : List AttendeeRow) : List AttendeeRow :=
  dedupByIdAux [] l

/-- "Track the most recent registration": keep the first row among those with
the maximal `created_at` (the source only replaces on a strict `>`). -/
def latestOf (group : List AttendeeRow) : Option AttendeeRow :=
  group.foldl
    (fun acc r =>
      match acc with
      | none => some r
      | some m => if m.created_at < r.created_at then some r else some m)
    none

/-- The per-person aggregate built by `_group_attendees_by_person` for one
key (`none` when no row has that key). -/
def mkGrouped (rows : List AttendeeRow) (k : String) : Option GroupedAttendee :=
  match rows.filter (fun r => personKey r == k) with
  | [] => none
  | g0 :: grest =>
    let g := g0 :: grest
    some
      { base := g0
        total_tickets_per_person := (g.map (fun r => r.ticket_quantity)).sum
        total_registrations := g.length
        current_tickets := ((latestOf g).map (fun r => r.ticket_quantity)).getD 0
        total_cash_amount :=
          ((g.filter (fun r => r.payment_mode == PaymentMode.cash)).map
            (fun r => r.total_price)).sum
        total_zelle_amount :=
          ((g.filter (fun r => !(r.payment_mode == PaymentMode.cash))).map
            (fun r => r.total_price)).sum
        cash_registrations :=
          (g.filter (fun r => r.payment_mode == PaymentMode.cash)).length
        zelle_registrations :=
          (g.filter (fun r => !(r.payment_mode == PaymentMode.cash))).length
        with_food_registrations :=
          (g.filter (fun r => r.food_option == FoodOption.with_food)).length
        without_food_registrations :=
          (g.filter (fun r => !(r.food_option == FoodOption.with_food))).length
        checked_in_registrations := (g.filter (fun r => r.is_checked_in)).length
        all_registrations := g
        volunteer_name := none
        volunteer_email := none
        volunteer_team_role := none }

/-- `_group_attendees_by_person`: one aggregate per person key, in
first-appearance order. -/
def groupAttendeesByPerson (rows : List AttendeeRow) : List GroupedAttendee :=
  (dedupFirst (rows.map personKey)).filterMap (mkGrouped rows)

/-- Value produced by the listing's `sort_key` helper: a string for
name/email/timestamp keys, a number for the count keys. -/
inductive SortVal
  | s (v : String)
  | n (v : Nat)
deriving DecidableEq, Repr

/-- Ordering on sort-key values (string and numeric values never mix for a
fixed `sort_by`). -/
def SortVal.le : SortVal → SortVal → Prop
  | .s x, .s y => x ≤ y
  | .n x, .n y => x ≤ y
  | .s _, .n _ => True
  | .n _, .s _ => False

instance : DecidableRel SortVal.le := fun a b =>
  match a, b with
  | .s x, .s y => inferInstanceAs (Decidable (x ≤ y))
  | .n x, .n y => inferInstanceAs (Decidable (x ≤ y))
  | .s _, .n _ => inferInstanceAs (Decidable True)
  | .n _, .s _ => inferInstanceAs (Decidable False)

/-- The `sort_key` helper of `get_attendees` (timestamps are numeric in the
model, where the source compares their string forms). -/
def sortValOf (key : String) (g : GroupedAttendee) : SortVal :=
  if key = "created_at" ∨ key = "registered_at" then .n g.base.created_at
  else if key = "total_tickets_per_person" then .n g.total_tickets_per_person
  else if key = "total_registrations" then .n g.total_registrations
  else if key = "current_tickets" then .n g.current_tickets
  else if key = "name" then .s g.base.name.toLower
  else if key = "email" then .s g.base.email.toLower
  else .n g.base.created_at

/-- `grouped.sort(key=sort_key, reverse=reverse)` with
`key = (sort_by or "created_at").lower()` and
`reverse = (sort_dir.lower() != "asc")`. -/
def sortGrouped (sort_by : Option String) (sort_dir : String)
    (gs : List GroupedAttendee) : List GroupedAttendee :=
  let key := (sort_by.getD "created_at").toLower
  let reverse := sort_dir.toLower ≠ "asc"
  if reverse then
    List.insertionSort (fun a b => SortVal.le (sortValOf key b) (sortValOf key a)) gs
  else
    List.insertionSort (fun a b => SortVal.le (sortValOf key a) (sortValOf key b)) gs

/-- `_enrich_attendees_with_volunteer_info`: fill the volunteer columns from
the `users` query; a failed users query is caught and yields `None` values. -/
def enrichWithVolunteers (usersQ : Except DbError (List UserRow))
    (gs : List GroupedAttendee) : List GroupedAttendee :=
  if gs.isEmpty then gs
  else
    match usersQ with
    | .error _ =>
      gs.map (fun g =>
        { g with volunteer_name := none, volunteer_email := none,
                 volunteer_team_role := none })
    | .ok users =>
      gs.map (fun g =>
        match g.base.created_by with
        | some vid =>
          match users.find? (fun u => u.id == vid) with
          | some u =>
            { g with volunteer_name := u.full_name, volunteer_email := u.email,
                     volunteer_team_role := u.team_role }
          | none =>
            { g with volunteer_name := none, volunteer_email := none,
                     volunteer_team_role := none }
        | none =>
          { g with volunteer_name := none, volunteer_email := none,
                   volunteer_team_role := none })

/-- `SupabaseClient.get_attendees`.  Query results arrive as `Except` values:
`nameQ`/`emailQ` are the two `ilike` searches of the search branch, `mainQ`
the filtered/ordered query of the plain branch (the `eq` filters run
datastore-side there).  Any raised query error reaches the function's
`except` clause, which returns `([], 0)`. -/
def get_attendees (mainQ nameQ emailQ : Except DbError (List AttendeeRow))
    (usersQ : Except DbError (List UserRow)) (checked_in : Option Bool)
    (search : Option String) (food_option : Option FoodOption)
    (limit offset : Nat) (sort_by : Option String) (sort_dir : String) :
    List GroupedAttendee × Nat :=
  if search.getD "" ≠ "" then
    match nameQ, emailQ with
    | .ok nameRows, .ok emailRows =>
      let merged := dedupById (nameRows ++ emailRows)
      let f1 :=
        match checked_in with
        | some b => merged.filter (fun r => r.is_checked_in == b)
        | none => merged
      let f2 :=
        match food_option with
        | some fo => f1.filter (fun r => r.food_option == fo)
        | none => f1
      let sorted := sortGrouped sort_by sort_dir (groupAttendeesByPerson f2)
      let total_count := sorted.length
      let page := (sorted.drop offset).take limit
      (enrichWithVolunteers usersQ page, total_count)
    | _, _ => ([], 0)
  else
    match mainQ with
    | .ok rows =>
      let sorted := sortGrouped sort_by sort_dir (groupAttendeesByPerson rows)
      let total_count := sorted.length
      let page := (sorted.drop offset).take limit
      (enrichWithVolunteers usersQ page, total_count)
    | .error _ => ([], 0)

/-! ### Derived definitions used by the verification -/

/-- Datastore id assignment for a batch of inserted rows. -/
def assignIds : List AttendeeRow → Nat → List AttendeeRow
  | [], _ => []
  | r :: rest, n => { r with id := n } :: assignIds rest (n + 1)

/-- The summary response of a successful registration: the first created row
with the aggregate quantity/total and the per-ticket code fields blanked. -/
def summaryRow (req : RegRequest) (eid : String) (creator : Option String)
    (now : Nat) (p : ℚ) (nid : Nat) : AttendeeRow :=
  { id := nid
    name := req.name
    email := normEmail req.email
    phone := req.phone
    payment_mode := req.payment_mode
    food_option := req.food_option
    ticket_quantity := req.ticket_quantity
    total_price := p * req.ticket_quantity
    event_id := eid
    created_by := creator
    qr_code_id := ""
    qr_code_url := none
    created_at := now
    is_checked_in := false
    checked_in_at := none
    is_guest := false }

/-- Storage keys uploaded by a successful registration of `n` tickets. -/
def regPaths (env : Env) (n : Nat) : List String :=
  (List.range' 1 n).map (fun k => uploadPath (env.codes k))

/-- The prepared records of a registration (before id assignment). -/
def regRecords (env : Env) (req : RegRequest) (eid : String)
    (creator : Option String) (unitPrice : ℚ) : List AttendeeRow :=
  (List.range' 1 req.ticket_quantity).map
    (fun k => mkRecord req eid creator env.now unitPrice (env.codes k)
      (publicUrl (uploadPath (env.codes k))))

/-- Number of leaderboard entries with strictly more tickets than `c`. -/
def countGt (l : List LBEntry) (c : Nat) : Nat :=
  l.countP (fun x => c < x.tickets_sold)

instance : DecidableRel pairNoOverlap := fun a b =>
  if h1 : a.event_id = b.event_id then
    if h2 : a.food_option = b.food_option then
      if h3 : a.quantity_from ≤ b.quantity_to ∧ b.quantity_from ≤ a.quantity_to
      then isFalse (fun hp => hp h1 h2 h3)
      else isTrue (fun _ _ => h3)
    else isTrue (fun _ h => absurd h h2)
  else isTrue (fun h => absurd h h1)

instance (l : List PricingTier) : Decidable (TiersInvariant l) :=
  inferInstanceAs (Decidable (List.Pairwise pairNoOverlap l))

/-! ### Concrete fixtures (used by counterexamples and witnesses) -/

/-- Tier $15 for 1-5 tickets, with food, event `e1`. -/
def exTier1 : PricingTier :=
  { id := 1, event_id := "e1", quantity_from := 1, quantity_to := 5,
    price_per_ticket := 15, food_option := .with_food, is_active := true }

/-- Tier $12 for 6-20 tickets, with food, event `e1`. -/
def exTier2 : PricingTier :=
  { id := 2, event_id := "e1", quantity_from := 6, quantity_to := 20,
    price_per_ticket := 12, food_option := .with_food, is_active := true }

/-- A state with the two example tiers and nothing else. -/
def exState : SysState :=
  { tiers := [exTier1, exTier2], attendees := [], guests := [], storage := [],
    nextId := 1, nextTierId := 3 }

/-- A state with no tiers, no rows, no storage objects. -/
def emptyState : SysState :=
  { tiers := [], attendees := [], guests := [], storage := [],
    nextId := 1, nextTierId := 1 }

/-- A two-ticket cash registration request. -/
def exReq : RegRequest :=
  { name := "Alice", email := "A@x.com", phone := "1234567890",
    payment_mode := .cash, food_option := .with_food, ticket_quantity := 2 }

/-- The same request with quantity 21, beyond every example tier. -/
def exReq21 : RegRequest :=
  { exReq with ticket_quantity := 21 }

/-- An environment where every upload and insert succeeds. -/
def faultFreeEnv : Env :=
  { codes := fun k => "c" ++ toString k, uploadOk := fun _ => true,
    insertOk := fun _ => true, now := 7 }

/-- Only the first QR upload succeeds (Prepare fails at ticket 2). -/
def prepFailEnv : Env :=
  { faultFreeEnv with uploadOk := fun k => k == 1 }

/-- Only the first row insert succeeds (Commit fails at record 1). -/
def commitFailEnv : Env :=
  { faultFreeEnv with insertOk := fun i => i == 0 }

/-- A row that is already checked in at time 5. -/
def checkedRow : AttendeeRow :=
  { id := 1, name := "Bob", email := "b@x.com", phone := "1234567890",
    payment_mode := .cash, food_option := .with_food, ticket_quantity := 1,
    total_price := 15, event_id := "e1", created_by := none,
    qr_code_id := "QR1", qr_code_url := some "u1", created_at := 2,
    is_checked_in := true, checked_in_at := some 5, is_guest := false }

/-- State whose only attendee is the already-checked-in row. -/
def checkedState : SysState :=
  { emptyState with attendees := [checkedRow] }

/-- A freshly issued, not yet checked-in row. -/
def freshRow : AttendeeRow :=
  { checkedRow with
    id := 2
    qr_code_id := "QR2"
    is_checked_in := false
    checked_in_at := none }

/-- State whose only attendee is the fresh row. -/
def freshState : SysState :=
  { emptyState with attendees := [freshRow] }

/-- A guest-table row with code `G1`. -/
def guestRow : AttendeeRow :=
  { checkedRow with
    id := 3
    qr_code_id := "G1"
    is_checked_in := false
    checked_in_at := none }

/-- State whose code `G1` exists only in the guests table. -/
def guestOnlyState : SysState :=
  { emptyState with guests := [guestRow] }

/-- Three volunteers: two tied on 5 tickets, one with 3. -/
def lbEx : List LBEntry :=
  [⟨"a", 5⟩, ⟨"b", 3⟩, ⟨"c", 5⟩]

/-- A tier-creation request whose range 3-8 overlaps tier 1-5 of `e1`. -/
def c7Req : TierCreate :=
  { event_id := "e1", quantity_from := 3, quantity_to := 8,
    price_per_ticket := 10 }

/-! ## Theorems -/

/-! ### Check-in layer -/

theorem find?_map_upd (now : Nat) (qr : String) (l : List AttendeeRow) :
    (l.map (fun r => if r.qr_code_id == qr then checkinData now r else r)).find?
      (fun r => r.qr_code_id == qr)
    = (l.find? (fun r => r.qr_code_id == qr)).map (checkinData now) := by
  induction l with
  | nil => rfl
  | cons a l ih =>
    by_cases ha : (a.qr_code_id == qr) = true
    case pos =>
      have ha2 : a.qr_code_id = qr := by simpa using ha
      simp [List.find?_cons, ha2, checkinData]
    case neg =>
      have ha2 : (a.qr_code_id == qr) = false := by simpa using ha
      have hfa : (if a.qr_code_id == qr then checkinData now a else a) = a := by
        simp [ha2]
      rw [List.map_cons, hfa, List.find?_cons, List.find?_cons, ha2]
      exact ih

theorem update_checkin_found (now : Nat) (s : SysState) (qr : String)
    (att : AttendeeRow)
    (hfind : s.attendees.find? (fun r => r.qr_code_id == qr) = some att) :
    update_attendee_checkin now s qr =
      (some (checkinData now att),
       { s with attendees :=
           s.attendees.map (fun r => if r.qr_code_id == qr then checkinData now r else r) }) := by
  unfold update_attendee_checkin
  simp only [find?_map_upd, hfind]
  rfl

theorem get_attendee_found (s : SysState) (qr : String) (att : AttendeeRow)
    (hfind : s.attendees.find? (fun r => r.qr_code_id == qr) = some att) :
    get_attendee_by_qr_id s qr = some att := by
  unfold get_attendee_by_qr_id
  rw [hfind]

theorem get_attendee_guest (s : SysState) (qr : String) (g : AttendeeRow)
    (hA : s.attendees.find? (fun r => r.qr_code_id == qr) = none)
    (hG : s.guests.find? (fun r => r.qr_code_id == qr) = some g) :
    get_attendee_by_qr_id s qr = some { g with is_guest := true } := by
  unfold get_attendee_by_qr_id
  rw [hA, hG]

theorem update_checkin_guest (now : Nat) (s : SysState) (qr : String)
    (g : AttendeeRow)
    (hA : s.attendees.find? (fun r => r.qr_code_id == qr) = none)
    (hG : s.guests.find? (fun r => r.qr_code_id == qr) = some g) :
    update_attendee_checkin now s qr =
      (some { checkinData now g with is_guest := true },
       { s with guests :=
           s.guests.map (fun r => if r.qr_code_id == qr then checkinData now r else r) }) := by
  unfold update_attendee_checkin
  simp only [find?_map_upd, hA, hG]
  rfl

theorem checkin_twice_spec (s : SysState) (qr : String) (att : AttendeeRow)
    (t1 t2 : Nat)
    (hfind : s.attendees.find? (fun r => r.qr_code_id == qr) = some att)
    (hnot : att.is_checked_in = false) :
    checkin_attendee t1 s qr =
      (.ok ⟨true, checkinData t1 att, "Check-in successful"⟩,
       { s with attendees :=
           s.attendees.map (fun r => if r.qr_code_id == qr then checkinData t1 r else r) }) ∧
    (checkinData t1 att).checked_in_at = some t1 ∧
    checkin_attendee t2 (checkin_attendee t1 s qr).2 qr =
      (.ok ⟨false, checkinData t1 att, "Attendee already checked in"⟩,
       (checkin_attendee t1 s qr).2) := by
  have hrun1 : checkin_attendee t1 s qr =
      (.ok ⟨true, checkinData t1 att, "Check-in successful"⟩,
       { s with attendees :=
           s.attendees.map (fun r => if r.qr_code_id == qr then checkinData t1 r else r) }) := by
    unfold checkin_attendee
    rw [get_attendee_found s qr att hfind]
    simp [hnot, update_checkin_found t1 s qr att hfind]
  refine ⟨hrun1, rfl, ?_⟩
  rw [hrun1]
  have hfind2 : ((s.attendees.map
      (fun r => if r.qr_code_id == qr then checkinData t1 r else r)).find?
        (fun r => r.qr_code_id == qr)) = some (checkinData t1 att) := by
    rw [find?_map_upd, hfind]
    rfl
  unfold checkin_attendee
  rw [get_attendee_found _ qr _ hfind2]
  simp [checkinData]

/-! ### Registration success path -/

theorem prepareGo_allOk (env : Env) (mk : String → String → AttendeeRow)
    (ks : List Nat) (acc : List AttendeeRow) (st : List String)
    (h : ∀ k, env.uploadOk k = true) :
    prepareGo env mk ks acc st =
      (some (acc ++ ks.map (fun k => mk (env.codes k)
         (publicUrl (uploadPath (env.codes k))))),
       st ++ ks.map (fun k => uploadPath (env.codes k))) := by
  induction ks generalizing acc st with
  | nil => simp [prepareGo]
  | cons k rest ih =>
    simp only [prepareGo, h k, if_true, upload_qr_code, List.map_cons]
    rw [ih]
    simp

theorem commitGo_allOk (env : Env) (rs : List (Nat × AttendeeRow))
    (created table : List AttendeeRow) (nid : Nat)
    (h : ∀ i, env.insertOk i = true) :
    commitGo env rs created table nid =
      (some (created ++ assignIds (rs.map Prod.snd) nid),
       table ++ assignIds (rs.map Prod.snd) nid, nid + rs.length) := by
  induction rs generalizing created table nid with
  | nil => simp [commitGo, assignIds]
  | cons pr rest ih =>
    obtain ⟨i, row⟩ := pr
    simp only [commitGo, h i, if_true, create_attendee, List.map_cons, assignIds]
    rw [ih]
    simp [List.append_assoc]
    omega

theorem register_allOk (env : Env) (eid : String) (creator : Option String)
    (req : RegRequest) (s : SysState) (p : ℚ)
    (hres : resolvePrice s.tiers eid req.food_option req.payment_mode
      req.ticket_quantity = .ok p)
    (hup : ∀ k, env.uploadOk k = true)
    (hins : ∀ i, env.insertOk i = true)
    (hN : req.ticket_quantity ≠ 0) :
    register env eid creator req s =
      (.ok (summaryRow req eid creator env.now p s.nextId),
       { s with
         attendees := s.attendees ++
           assignIds (regRecords env req eid creator
             (p * req.ticket_quantity / req.ticket_quantity)) s.nextId
         nextId := s.nextId + req.ticket_quantity
         storage := s.storage ++ regPaths env req.ticket_quantity }) := by
  obtain ⟨m, hm⟩ : ∃ m, req.ticket_quantity = m + 1 :=
    ⟨req.ticket_quantity - 1, by omega⟩
  unfold register
  rw [hres]
  simp only
  rw [prepareGo_allOk env _ _ _ _ hup]
  simp only [List.nil_append]
  rw [commitGo_allOk env _ _ _ _ hins]
  simp only [List.enum_map_snd, List.nil_append, List.enum_length]
  rw [regRecords, regPaths, hm]
  simp only [List.range'_succ, List.map_cons, assignIds]
  simp [mkRecord, summaryRow, List.length_map, List.length_range']
  constructor
  · omega
  · left
    rw [hm]
    push_cast
    ring

theorem assignIds_length (l : List AttendeeRow) (n : Nat) :
    (assignIds l n).length = l.length := by
  induction l generalizing n with
  | nil => rfl
  | cons r rest ih => simp [assignIds, ih]

theorem mem_assignIds (l : List AttendeeRow) (n : Nat) (r : AttendeeRow)
    (h : r ∈ assignIds l n) : ∃ x ∈ l, ∃ m, r = { x with id := m } := by
  induction l generalizing n with
  | nil => simp [assignIds] at h
  | cons x rest ih =>
    simp only [assignIds, List.mem_cons] at h
    cases h with
    | inl h => exact ⟨x, List.mem_cons_self _ _, n, h⟩
    | inr h =>
      obtain ⟨y, hy, m, hm⟩ := ih (n + 1) h
      exact ⟨y, List.mem_cons_of_mem _ hy, m, hm⟩

theorem assignIds_map_total_price (l : List AttendeeRow) (n : Nat) :
    (assignIds l n).map (fun r => r.total_price)
      = l.map (fun r => r.total_price) := by
  induction l generalizing n with
  | nil => rfl
  | cons r rest ih => simp [assignIds, ih]

theorem regRecords_map_total_price (env : Env) (req : RegRequest)
    (eid : String) (creator : Option String) (u : ℚ) :
    (regRecords env req eid creator u).map (fun r => r.total_price)
      = List.replicate req.ticket_quantity u := by
  unfold regRecords
  rw [List.map_map]
  have : ((fun r : AttendeeRow => r.total_price) ∘ fun k =>
      mkRecord req eid creator env.now u (env.codes k)
        (publicUrl (uploadPath (env.codes k)))) = fun _ => u := rfl
  rw [this, List.map_const', List.length_range']

/-! ### Pricing resolution -/

theorem findTier_of_isEmpty (tiers : List PricingTier) (q : Nat)
    (fo : FoodOption) (h : tiers.isEmpty = true) :
    findTier tiers q fo = none := by
  cases tiers with
  | nil => rfl
  | cons t rest => simp [List.isEmpty] at h

theorem resolvePrice_of_findTier (db : List PricingTier) (eid : String)
    (fo : FoodOption) (pm : PaymentMode) (q : Nat) (t : PricingTier)
    (hft : findTier (fetchActiveTiers db eid fo) q fo = some t) :
    resolvePrice db eid fo pm q = .ok (t.price_per_ticket + surchargeOf pm) := by
  unfold resolvePrice
  cases he : (fetchActiveTiers db eid fo).isEmpty with
  | true =>
    rw [findTier_of_isEmpty _ _ _ he] at hft
    simp at hft
  | false =>
    simp only [he, Bool.false_eq_true, if_false, hft]

theorem register_of_resolve_error (env : Env) (eid : String)
    (creator : Option String) (req : RegRequest) (s : SysState) (e : RegError)
    (h : resolvePrice s.tiers eid req.food_option req.payment_mode
      req.ticket_quantity = .error e) :
    register env eid creator req s = (.error e, s) := by
  unfold register
  rw [h]

theorem resolvePrice_of_empty (db : List PricingTier) (eid : String)
    (fo : FoodOption) (pm : PaymentMode) (q : Nat)
    (h : fetchActiveTiers db eid fo = []) :
    resolvePrice db eid fo pm q = .error .noPricingTiers := by
  unfold resolvePrice
  rw [h]
  rfl

theorem resolvePrice_of_noTier (db : List PricingTier) (eid : String)
    (fo : FoodOption) (pm : PaymentMode) (q : Nat)
    (hne : fetchActiveTiers db eid fo ≠ [])
    (h : findTier (fetchActiveTiers db eid fo) q fo = none) :
    resolvePrice db eid fo pm q = .error .noTierForQuantity := by
  unfold resolvePrice
  have hemp : (fetchActiveTiers db eid fo).isEmpty = false := by
    cases hfe : fetchActiveTiers db eid fo with
    | nil => exact absurd hfe hne
    | cons a rest => rfl
  simp only [hemp, Bool.false_eq_true, if_false, h]

theorem fetchActiveTiers_mem (db : List PricingTier) (eid : String)
    (fo : FoodOption) :
    ∀ t ∈ fetchActiveTiers db eid fo,
      t.event_id = eid ∧ t.is_active = true ∧ t.food_option = fo := by
  intro t ht
  rw [fetchActiveTiers, List.mem_insertionSort, List.mem_filter] at ht
  have h2 := ht.2
  simp only [Bool.and_eq_true, beq_iff_eq] at h2
  exact ⟨h2.1.1, h2.1.2, h2.2⟩

theorem fetchActiveTiers_sorted (db : List PricingTier) (eid : String)
    (fo : FoodOption) :
    List.Sorted tierFromLe (fetchActiveTiers db eid fo) :=
  List.sorted_insertionSort tierFromLe _

theorem findTier_some_iff (tiers : List PricingTier) (q : Nat)
    (fo : FoodOption) (t : PricingTier) :
    findTier tiers q fo = some t ↔
      ∃ pre suf, tiers = pre ++ t :: suf ∧
        (inRange t q && t.food_option == fo) = true ∧
        ∀ u ∈ pre, (inRange u q && u.food_option == fo) = false := by
  induction tiers with
  | nil =>
    simp only [findTier]
    constructor
    · intro h; exact absurd h (by simp)
    · rintro ⟨pre, suf, heq, -, -⟩
      exact absurd heq (by simp)
  | cons a rest ih =>
    by_cases ha : (inRange a q && a.food_option == fo) = true
    case pos =>
      simp only [findTier, ha, if_true]
      constructor
      · intro h
        have hat : a = t := by injection h
        subst hat
        exact ⟨[], rest, rfl, ha, by simp⟩
      · rintro ⟨pre, suf, heq, hcond, hpre⟩
        cases pre with
        | nil =>
          simp only [List.nil_append, List.cons.injEq] at heq
          rw [heq.1]
        | cons p pre1 =>
          simp only [List.cons_append, List.cons.injEq] at heq
          have hfalse := hpre p (List.mem_cons_self _ _)
          rw [← heq.1] at hfalse
          rw [ha] at hfalse
          exact absurd hfalse (by simp)
    case neg =>
      have ha2 : (inRange a q && a.food_option == fo) = false := by
        simpa using ha
      simp only [findTier, ha2, Bool.false_eq_true, if_false]
      rw [ih]
      constructor
      · rintro ⟨pre, suf, heq, hcond, hpre⟩
        refine ⟨a :: pre, suf, by rw [heq]; rfl, hcond, ?_⟩
        intro u hu
        rcases List.mem_cons.mp hu with hu | hu
        · subst hu; exact ha2
        · exact hpre u hu
      · rintro ⟨pre, suf, heq, hcond, hpre⟩
        cases pre with
        | nil =>
          simp only [List.nil_append, List.cons.injEq] at heq
          rw [← heq.1] at hcond
          rw [ha2] at hcond
          exact absurd hcond (by simp)
        | cons p pre1 =>
          simp only [List.cons_append, List.cons.injEq] at heq
          refine ⟨pre1, suf, heq.2, hcond, ?_⟩
          intro u hu
          exact hpre u (List.mem_cons_of_mem _ hu)

/-! ### Tier creation -/

theorem create_tier_rejects_overlap (dfFood : FoodOption) (dfActive : Bool)
    (s : SysState) (req : TierCreate)
    (h : ∃ t ∈ s.tiers, t.event_id = req.event_id ∧
      req.quantity_from ≤ t.quantity_to ∧ t.quantity_from ≤ req.quantity_to) :
    create_pricing_tier dfFood dfActive s req = (.error 400, s) := by
  obtain ⟨t, ht, hev, h1, h2⟩ := h
  have hany : ((s.tiers.filter (fun t => t.event_id == req.event_id)).any
      (fun t => req.quantity_from ≤ t.quantity_to &&
        req.quantity_to ≥ t.quantity_from)) = true := by
    rw [List.any_eq_true]
    refine ⟨t, ?_, ?_⟩
    · rw [List.mem_filter]
      exact ⟨ht, by simp [hev]⟩
    · simp only [Bool.and_eq_true, decide_eq_true_eq]
      exact ⟨h1, h2⟩
  unfold create_pricing_tier
  simp only [hany, if_true]

theorem create_tier_preserves_invariant (dfFood : FoodOption)
    (dfActive : Bool) (s : SysState) (req : TierCreate)
    (hinv : TiersInvariant s.tiers) :
    TiersInvariant (create_pricing_tier dfFood dfActive s req).2.tiers := by
  by_cases hany : ((s.tiers.filter (fun t => t.event_id == req.event_id)).any
      (fun t => req.quantity_from ≤ t.quantity_to &&
        req.quantity_to ≥ t.quantity_from)) = true
  case pos =>
    have hred : create_pricing_tier dfFood dfActive s req = (.error 400, s) := by
      unfold create_pricing_tier
      rw [if_pos hany]
    rw [hred]
    exact hinv
  case neg =>
    have hred : (create_pricing_tier dfFood dfActive s req).2.tiers
        = s.tiers ++ [newTierOf s req dfFood dfActive] := by
      unfold create_pricing_tier
      rw [if_neg hany]
    rw [hred]
    rw [TiersInvariant, List.pairwise_append]
    refine ⟨hinv, List.pairwise_singleton _ _, ?_⟩
    intro a ha b hb
    simp only [List.mem_singleton] at hb
    subst hb
    intro hev hfo hover
    simp only [newTierOf] at hev hover
    have hafilter : a ∈ s.tiers.filter (fun t => t.event_id == req.event_id) := by
      rw [List.mem_filter]
      exact ⟨ha, by simp [hev]⟩
    have hany2 : ((s.tiers.filter (fun t => t.event_id == req.event_id)).any
        (fun t => req.quantity_from ≤ t.quantity_to &&
          req.quantity_to ≥ t.quantity_from)) = false := by
      simpa using hany
    have := List.any_eq_false.mp hany2 a hafilter
    simp only [Bool.and_eq_true, decide_eq_true_eq, not_and] at this
    exact this hover.2 hover.1

theorem create_tier_fold_preserves (s : SysState)
    (reqs : List (TierCreate × FoodOption × Bool))
    (hinv : TiersInvariant s.tiers) :
    TiersInvariant ((reqs.foldl
      (fun st r => (create_pricing_tier r.2.1 r.2.2 st r.1).2) s).tiers) := by
  induction reqs generalizing s with
  | nil => exact hinv
  | cons r rest ih =>
    exact ih _ (create_tier_preserves_invariant r.2.1 r.2.2 s r.1 hinv)

/-! ### Leaderboard ranking -/

theorem countGt_append (l1 l2 : List LBEntry) (c : Nat) :
    countGt (l1 ++ l2) c = countGt l1 c + countGt l2 c :=
  List.countP_append _ _ _

theorem countGt_eq_length (l : List LBEntry) (c : Nat)
    (h : ∀ x ∈ l, c < x.tickets_sold) : countGt l c = l.length := by
  rw [countGt, List.countP_eq_length]
  intro x hx
  simpa using h x hx

theorem countGt_eq_zero (l : List LBEntry) (c : Nat)
    (h : ∀ x ∈ l, x.tickets_sold ≤ c) : countGt l c = 0 := by
  rw [countGt, List.countP_eq_zero]
  intro x hx
  simpa using h x hx

theorem assignRanksAux_closed (L : List LBEntry) :
    ∀ (rest ctx : List LBEntry) (p : Nat), L = ctx ++ rest →
    (∀ x ∈ ctx, p ≤ x.tickets_sold) →
    List.Sorted lbRel rest →
    (∀ x ∈ rest, x.tickets_sold ≤ p) →
    assignRanksAux ctx.length (1 + countGt L p) (some p) rest
      = rest.map (fun e => (e, 1 + countGt L e.tickets_sold)) := by
  intro rest
  induction rest with
  | nil => intro ctx p _ _ _ _; rfl
  | cons e rest' ih =>
    intro ctx p hL hctx hsorted hle
    have hsorted' : List.Sorted lbRel rest' := hsorted.of_cons
    have hhead : ∀ x ∈ rest', x.tickets_sold ≤ e.tickets_sold :=
      fun x hx => List.rel_of_sorted_cons hsorted x hx
    by_cases hep : e.tickets_sold = p
    case pos =>
      have hstep : assignRanksAux ctx.length (1 + countGt L p) (some p)
          (e :: rest')
          = (e, 1 + countGt L p) ::
            assignRanksAux (ctx.length + 1) (1 + countGt L p)
              (some e.tickets_sold) rest' := by
        simp [assignRanksAux, hep]
      rw [hstep]
      have hrec := ih (ctx ++ [e]) p (by rw [hL, List.append_assoc]; rfl)
        (by
          intro x hx
          rcases List.mem_append.mp hx with hx | hx
          · exact hctx x hx
          · simp only [List.mem_singleton] at hx
            subst hx
            omega)
        hsorted'
        (fun x hx => le_trans (hhead x hx) (le_of_eq hep))
      rw [List.length_append, List.length_singleton] at hrec
      rw [hep, hrec, List.map_cons, hep]
    case neg =>
      have helt : e.tickets_sold < p :=
        lt_of_le_of_ne (hle e (List.mem_cons_self _ _)) hep
      have hcnt : countGt L e.tickets_sold = ctx.length := by
        rw [hL, countGt_append]
        have h1 : countGt ctx e.tickets_sold = ctx.length :=
          countGt_eq_length _ _ (fun x hx => lt_of_lt_of_le helt (hctx x hx))
        have h2 : countGt (e :: rest') e.tickets_sold = 0 :=
          countGt_eq_zero _ _ (by
            intro x hx
            rcases List.mem_cons.mp hx with hx | hx
            · subst hx; exact le_refl _
            · exact hhead x hx)
        rw [h1, h2]
        omega
      have hstep : assignRanksAux ctx.length (1 + countGt L p) (some p)
          (e :: rest')
          = (e, ctx.length + 1) ::
            assignRanksAux (ctx.length + 1) (ctx.length + 1)
              (some e.tickets_sold) rest' := by
        simp [assignRanksAux, hep]
      rw [hstep]
      have hrec := ih (ctx ++ [e]) e.tickets_sold
        (by rw [hL, List.append_assoc]; rfl)
        (by
          intro x hx
          rcases List.mem_append.mp hx with hx | hx
          · exact le_trans (le_of_lt helt) (hctx x hx)
          · simp only [List.mem_singleton] at hx
            subst hx
            exact le_refl _)
        hsorted'
        hhead
      rw [List.length_append, List.length_singleton, hcnt] at hrec
      rw [Nat.add_comm 1 ctx.length] at hrec
      rw [hrec, List.map_cons, hcnt, Nat.add_comm ctx.length 1]

theorem assignRanks_closed (l : List LBEntry) (hs : List.Sorted lbRel l) :
    assignRanks l = l.map (fun e => (e, 1 + countGt l e.tickets_sold)) := by
  cases l with
  | nil => rfl
  | cons e rest =>
    have hhead : ∀ x ∈ rest, x.tickets_sold ≤ e.tickets_sold :=
      fun x hx => List.rel_of_sorted_cons hs x hx
    have hcnt : countGt (e :: rest) e.tickets_sold = 0 :=
      countGt_eq_zero _ _ (by
        intro x hx
        rcases List.mem_cons.mp hx with hx | hx
        · subst hx; exact le_refl _
        · exact hhead x hx)
    have hstep : assignRanks (e :: rest)
        = (e, 1) :: assignRanksAux 1 1 (some e.tickets_sold) rest := by
      simp [assignRanks, assignRanksAux]
    rw [hstep]
    have hrec := assignRanksAux_closed (e :: rest) rest [e] e.tickets_sold rfl
      (by intro x hx; simp only [List.mem_singleton] at hx; subst hx; exact le_refl _)
      hs.of_cons hhead
    rw [List.length_singleton, hcnt] at hrec
    rw [hrec, List.map_cons, hcnt]

theorem lbSort_sorted (l : List LBEntry) : List.Sorted lbRel (lbSort l) :=
  List.sorted_insertionSort lbRel l

theorem lbSort_perm (l : List LBEntry) : List.Perm (lbSort l) l :=
  List.perm_insertionSort lbRel l

theorem lbSort_stable (l : List LBEntry) (c : Nat) :
    (lbSort l).filter (fun e => e.tickets_sold == c)
      = l.filter (fun e => e.tickets_sold == c) := by
  have hpair : (l.filter (fun e => e.tickets_sold == c)).Pairwise lbRel := by
    apply List.pairwise_of_forall_mem_list
    intro a ha b hb
    rw [List.mem_filter] at ha hb
    have ha2 : a.tickets_sold = c := by simpa using ha.2
    have hb2 : b.tickets_sold = c := by simpa using hb.2
    rw [lbRel, ha2, hb2]
  have hsub : List.Sublist (l.filter (fun e => e.tickets_sold == c)) (lbSort l) :=
    List.sublist_insertionSort hpair (List.filter_sublist l)
  have hsub2 : List.Sublist (l.filter (fun e => e.tickets_sold == c))
      ((lbSort l).filter (fun e => e.tickets_sold == c)) := by
    have := hsub.filter (fun e => e.tickets_sold == c)
    rwa [List.filter_filter, show (fun e : LBEntry =>
      (e.tickets_sold == c) && (e.tickets_sold == c)) = fun e =>
        e.tickets_sold == c from funext (fun e => Bool.and_self _)] at this
  have hlen : ((lbSort l).filter (fun e => e.tickets_sold == c)).length
      = (l.filter (fun e => e.tickets_sold == c)).length :=
    ((lbSort_perm l).filter _).length_eq
  exact (hsub2.eq_of_length hlen.symm).symm

theorem leaderboardRanks_length (l : List LBEntry) :
    (leaderboardRanks l).length = (lbSort l).length := by
  rw [leaderboardRanks, assignRanks_closed (lbSort l) (lbSort_sorted l),
    List.length_map]

theorem leaderboardRanks_get (l : List LBEntry) (i : Nat)
    (hi : i < (leaderboardRanks l).length)
    (hi2 : i < (lbSort l).length) :
    (leaderboardRanks l).get ⟨i, hi⟩
      = ((lbSort l).get ⟨i, hi2⟩,
         1 + countGt (lbSort l) (((lbSort l).get ⟨i, hi2⟩).tickets_sold)) := by
  have h := assignRanks_closed (lbSort l) (lbSort_sorted l)
  rw [List.get_eq_getElem]
  simp only [leaderboardRanks] at hi ⊢
  rw [List.getElem_of_eq h, List.getElem_map]
  rw [List.get_eq_getElem]

theorem countGt_head_zero (L : List LBEntry) (hs : List.Sorted lbRel L)
    (h0 : 0 < L.length) :
    countGt L ((L.get ⟨0, h0⟩).tickets_sold) = 0 := by
  cases L with
  | nil => simp at h0
  | cons e rest =>
    apply countGt_eq_zero
    intro x hx
    rcases List.mem_cons.mp hx with hx | hx
    · subst hx; exact le_refl _
    · exact List.rel_of_sorted_cons hs x hx

theorem countGt_strict_decrease (L : List LBEntry) (hs : List.Sorted lbRel L)
    (i : Nat) (hi : i + 1 < L.length)
    (hlt : ((L.get ⟨i+1, hi⟩).tickets_sold
      < (L.get ⟨i, by omega⟩).tickets_sold)) :
    countGt L ((L.get ⟨i+1, hi⟩).tickets_sold) = i + 1 := by
  have htake : countGt (L.take (i+1)) ((L.get ⟨i+1, hi⟩).tickets_sold)
      = i + 1 := by
    rw [countGt_eq_length]
    · rw [List.length_take]
      omega
    · intro x hx
      obtain ⟨j, hjlen, hxj⟩ := List.mem_iff_getElem.mp hx
      rw [List.length_take] at hjlen
      have hj : j < i + 1 := lt_of_lt_of_le hjlen (min_le_left _ _)
      have hxL : x = L.get ⟨j, by omega⟩ := by
        rw [List.get_eq_getElem, ← hxj, List.getElem_take]
      have hrel : lbRel (L.get ⟨j, by omega⟩) (L.get ⟨i, by omega⟩) :=
        hs.rel_get_of_le (by simpa [Fin.le_def] using Nat.lt_succ_iff.mp hj)
      rw [hxL]
      exact lt_of_lt_of_le hlt hrel
  have hdrop : countGt (L.drop (i+1)) ((L.get ⟨i+1, hi⟩).tickets_sold)
      = 0 := by
    apply countGt_eq_zero
    intro y hy
    have hdeq : L.drop (i+1) = L.get ⟨i+1, hi⟩ :: L.drop (i+2) := by
      rw [List.get_eq_getElem]
      exact List.drop_eq_getElem_cons hi
    rw [hdeq] at hy
    have hdsorted : List.Pairwise lbRel (L.get ⟨i+1, hi⟩ :: L.drop (i+2)) := by
      rw [← hdeq]
      exact hs.sublist (List.drop_sublist _ _)
    rcases List.mem_cons.mp hy with hy | hy
    · subst hy; exact le_refl _
    · exact (List.pairwise_cons.mp hdsorted).1 y hy
  calc countGt L ((L.get ⟨i+1, hi⟩).tickets_sold)
      = countGt (L.take (i+1) ++ L.drop (i+1))
          ((L.get ⟨i+1, hi⟩).tickets_sold) := by
        rw [List.take_append_drop]
    _ = i + 1 := by rw [countGt_append, htake, hdrop]

/-! ## Claim theorems -/

/-- C1: the spec claims a failed Prepare or Commit leaves zero ticket rows and
zero stored QR images, each compensating delete removing exactly the object
its upload created.  The row half holds, but the storage half fails in the
code: `upload_qr_code` writes the key `qr_codes/<code>.png` while
`delete_qr_code` removes `<code>.png`.  At a concrete 2-ticket registration
whose second upload fails (and at one whose second insert fails), the handler
returns its error with zero rows but the uploaded images still in storage,
and the delete applied to the uploaded key removes nothing. -/
theorem c1_failed_rollback_leaves_storage_objects :
    (register prepFailEnv "e1" none exReq exState).1 = .error .prepareFailed ∧
    (register prepFailEnv "e1" none exReq exState).2.attendees = [] ∧
    (register prepFailEnv "e1" none exReq exState).2.storage = [uploadPath "c1"] ∧
    (register commitFailEnv "e1" none exReq exState).1 = .error .commitFailed ∧
    (register commitFailEnv "e1" none exReq exState).2.attendees = [] ∧
    (register commitFailEnv "e1" none exReq exState).2.storage
      = [uploadPath "c1", uploadPath "c2"] ∧
    delete_qr_code [uploadPath "c1"] "c1" = [uploadPath "c1"] ∧
    uploadPath "c1" ≠ deletePath "c1" :=
  ⟨rfl, rfl, rfl, rfl, rfl, rfl, rfl, by decide⟩

/-- C2 (counterexample): applying the persistence-layer check-in update to a
row whose `is_checked_in` is already true does NOT leave the row unchanged:
the stored `checked_in_at` (time 5) is overwritten with the current time 9. -/
theorem c2_update_overwrites_checked_row :
    checkedRow.is_checked_in = true ∧ checkedRow.checked_in_at = some 5 ∧
    (update_attendee_checkin 9 checkedState "QR1").2.attendees
      = [{ checkedRow with checked_in_at := some 9 }] ∧
    (update_attendee_checkin 9 checkedState "QR1").2 ≠ checkedState :=
  ⟨rfl, rfl, rfl, by decide⟩

/-- C2 (amended): the persistence-layer check-in update is unconditional:
whenever any row matches the code — regardless of its stored `is_checked_in`
— every matching row is overwritten with `is_checked_in = true` and
`checked_in_at = now`. -/
theorem c2_update_is_unconditional (now : Nat) (s : SysState) (qr : String)
    (att : AttendeeRow)
    (hfind : s.attendees.find? (fun r => r.qr_code_id == qr) = some att) :
    update_attendee_checkin now s qr =
      (some (checkinData now att),
       { s with attendees :=
           s.attendees.map (fun r => if r.qr_code_id == qr then checkinData now r else r) }) ∧
    (checkinData now att).is_checked_in = true ∧
    (checkinData now att).checked_in_at = some now :=
  ⟨update_checkin_found now s qr att hfind, rfl, rfl⟩

/-- Witness for C2's amended theorem: applied to the already-checked-in row,
the update still fires and returns the overwritten row. -/
theorem c2_update_is_unconditional_witness :
    (update_attendee_checkin 9 checkedState "QR1").1
      = some (checkinData 9 checkedRow) := by
  rw [(c2_update_is_unconditional 9 checkedState "QR1" checkedRow rfl).1]

/-- C3: calling the check-in endpoint twice sequentially with an issued,
not-yet-checked-in code: the first call returns success with
`checked_in_at = t1` freshly set; the second returns `success = false` with
the "already checked in" message, mutates nothing, and reports the same
`checked_in_at` from the first call. -/
theorem c3_double_checkin_idempotent (s : SysState) (qr : String)
    (att : AttendeeRow) (t1 t2 : Nat)
    (hfind : s.attendees.find? (fun r => r.qr_code_id == qr) = some att)
    (hnot : att.is_checked_in = false) :
    checkin_attendee t1 s qr =
      (.ok ⟨true, checkinData t1 att, "Check-in successful"⟩,
       { s with attendees :=
           s.attendees.map (fun r => if r.qr_code_id == qr then checkinData t1 r else r) }) ∧
    (checkinData t1 att).checked_in_at = some t1 ∧
    checkin_attendee t2 (checkin_attendee t1 s qr).2 qr =
      (.ok ⟨false, checkinData t1 att, "Attendee already checked in"⟩,
       (checkin_attendee t1 s qr).2) ∧
    (∃ p0, "Attendee already checked in" = p0 ++ "already checked in") := by
  have h := checkin_twice_spec s qr att t1 t2 hfind hnot
  exact ⟨h.1, rfl, h.2.2, "Attendee ", rfl⟩

/-- Witness for C3: the double check-in on the concrete fresh row. -/
theorem c3_double_checkin_idempotent_witness :
    checkin_attendee 4 (checkin_attendee 3 freshState "QR2").2 "QR2"
      = (.ok ⟨false, checkinData 3 freshRow, "Attendee already checked in"⟩,
         (checkin_attendee 3 freshState "QR2").2) :=
  (c3_double_checkin_idempotent freshState "QR2" freshRow 3 4 rfl rfl).2.2.1

/-- C4: a successful registration of quantity N persists exactly N rows, each
with `ticket_quantity = 1` and per-row price equal to the resolved per-ticket
price (tier price plus surcharge), and the per-row prices sum to
`tier_price × N + surcharge × N`. -/
theorem c4_success_rows_and_prices (env : Env) (eid : String)
    (creator : Option String) (req : RegRequest) (s : SysState)
    (t : PricingTier)
    (hft : findTier (fetchActiveTiers s.tiers eid req.food_option)
        req.ticket_quantity req.food_option = some t)
    (hup : ∀ k, env.uploadOk k = true) (hins : ∀ i, env.insertOk i = true)
    (h1 : 1 ≤ req.ticket_quantity) (h20 : req.ticket_quantity ≤ 20) :
    ∃ resp s1, register env eid creator req s = (.ok resp, s1) ∧
      ∃ rows, s1.attendees = s.attendees ++ rows ∧
        rows.length = req.ticket_quantity ∧
        (∀ r ∈ rows, r.ticket_quantity = 1 ∧
          r.total_price = t.price_per_ticket + surchargeOf req.payment_mode) ∧
        (rows.map (fun r => r.total_price)).sum =
          t.price_per_ticket * req.ticket_quantity +
            surchargeOf req.payment_mode * req.ticket_quantity := by
  have hN : req.ticket_quantity ≠ 0 := by omega
  have hNQ : (req.ticket_quantity : ℚ) ≠ 0 := by
    exact_mod_cast hN
  have hres := resolvePrice_of_findTier s.tiers eid req.food_option
    req.payment_mode req.ticket_quantity t hft
  have hu : (t.price_per_ticket + surchargeOf req.payment_mode) *
      (req.ticket_quantity : ℚ) / (req.ticket_quantity : ℚ)
      = t.price_per_ticket + surchargeOf req.payment_mode :=
    mul_div_cancel_right₀ _ hNQ
  have hreg := register_allOk env eid creator req s _ hres hup hins hN
  rw [hu] at hreg
  refine ⟨_, _, hreg, ?_⟩
  refine ⟨assignIds (regRecords env req eid creator
    (t.price_per_ticket + surchargeOf req.payment_mode)) s.nextId, rfl, ?_, ?_, ?_⟩
  · rw [assignIds_length]
    simp [regRecords, List.length_range']
  · intro r hr
    obtain ⟨x, hx, m, hm⟩ := mem_assignIds _ _ _ hr
    simp only [regRecords, List.mem_map] at hx
    obtain ⟨k, hk, hxe⟩ := hx
    subst hxe
    subst hm
    exact ⟨rfl, rfl⟩
  · rw [assignIds_map_total_price, regRecords_map_total_price]
    rw [List.sum_replicate, nsmul_eq_mul]
    ring

/-- Witness for C4: a fault-free 2-ticket cash registration against the
example tiers. -/
theorem c4_success_rows_and_prices_witness : ∃ resp s1,
    register faultFreeEnv "e1" none exReq exState = (.ok resp, s1) ∧
    ∃ rows, s1.attendees = exState.attendees ++ rows ∧
      rows.length = exReq.ticket_quantity ∧
      (∀ r ∈ rows, r.ticket_quantity = 1 ∧
        r.total_price = exTier1.price_per_ticket + surchargeOf exReq.payment_mode) ∧
      (rows.map (fun r => r.total_price)).sum =
        exTier1.price_per_ticket * exReq.ticket_quantity +
          surchargeOf exReq.payment_mode * exReq.ticket_quantity :=
  c4_success_rows_and_prices faultFreeEnv "e1" none exReq exState exTier1
    (by rfl) (fun _ => rfl) (fun _ => rfl) (by decide) (by decide)

/-- C5: pricing resolution.  The fetched tiers are the active tiers of the
event and food option, ordered by `quantity_from`; the selected tier is the
first whose inclusive range contains the quantity; the per-ticket price adds
the $1 surcharge exactly for zelle; an empty fetch yields the
"No pricing tiers found" 400 error and a fetch with no containing range the
distinct "No pricing tier found for the specified quantity" error, both with
the state unchanged (no rows created); and the spec's example — tiers
[(1,5,$15),(6,20,$12)], quantity 6, zelle — resolves to $13/ticket, $78
total. -/
theorem c5_pricing_resolution (env : Env) (eid : String)
    (creator : Option String) (req : RegRequest) (s : SysState) :
    List.Sorted tierFromLe (fetchActiveTiers s.tiers eid req.food_option) ∧
    (∀ t ∈ fetchActiveTiers s.tiers eid req.food_option,
      t.event_id = eid ∧ t.is_active = true ∧ t.food_option = req.food_option) ∧
    (fetchActiveTiers s.tiers eid req.food_option = [] →
      register env eid creator req s = (.error .noPricingTiers, s)) ∧
    (fetchActiveTiers s.tiers eid req.food_option ≠ [] →
      findTier (fetchActiveTiers s.tiers eid req.food_option)
        req.ticket_quantity req.food_option = none →
      register env eid creator req s = (.error .noTierForQuantity, s)) ∧
    (∀ t, findTier (fetchActiveTiers s.tiers eid req.food_option)
        req.ticket_quantity req.food_option = some t ↔
      ∃ pre suf, fetchActiveTiers s.tiers eid req.food_option = pre ++ t :: suf ∧
        (inRange t req.ticket_quantity && t.food_option == req.food_option) = true ∧
        ∀ u ∈ pre,
          (inRange u req.ticket_quantity && u.food_option == req.food_option) = false) ∧
    (∀ t, findTier (fetchActiveTiers s.tiers eid req.food_option)
        req.ticket_quantity req.food_option = some t →
      resolvePrice s.tiers eid req.food_option req.payment_mode req.ticket_quantity
        = .ok (t.price_per_ticket + surchargeOf req.payment_mode)) ∧
    surchargeOf PaymentMode.zelle = 1 ∧ surchargeOf PaymentMode.cash = 0 ∧
    regErrorDetail RegError.noPricingTiers = "No pricing tiers found for this event" ∧
    regErrorDetail RegError.noTierForQuantity
      = "No pricing tier found for the specified quantity" ∧
    RegError.noPricingTiers ≠ RegError.noTierForQuantity ∧
    resolvePrice [exTier1, exTier2] "e1" FoodOption.with_food PaymentMode.zelle 6
      = .ok 13 ∧
    (13 : ℚ) * 6 = 78 := by
  refine ⟨fetchActiveTiers_sorted _ _ _, fetchActiveTiers_mem _ _ _, ?_, ?_,
    fun t => findTier_some_iff _ _ _ t, ?_, rfl, rfl, rfl, rfl, by decide, ?_,
    by norm_num⟩
  · intro h
    exact register_of_resolve_error env eid creator req s _
      (resolvePrice_of_empty _ _ _ _ _ h)
  · intro hne h
    exact register_of_resolve_error env eid creator req s _
      (resolvePrice_of_noTier _ _ _ _ _ hne h)
  · intro t ht
    exact resolvePrice_of_findTier _ _ _ _ _ t ht
  · rw [resolvePrice_of_findTier [exTier1, exTier2] "e1" .with_food .zelle 6
      exTier2 (by rfl)]
    norm_num [exTier2, surchargeOf]

/-- Witness for C5: no tiers at all gives the "no pricing tiers" error, and
quantity 21 outside every tier gives the "no tier for quantity" error, both
leaving the state unchanged. -/
theorem c5_pricing_resolution_witness :
    register faultFreeEnv "e1" none exReq emptyState
      = (.error .noPricingTiers, emptyState) ∧
    register faultFreeEnv "e1" none exReq21 exState
      = (.error .noTierForQuantity, exState) :=
  ⟨(c5_pricing_resolution faultFreeEnv "e1" none exReq emptyState).2.2.1 rfl,
   (c5_pricing_resolution faultFreeEnv "e1" none exReq21 exState).2.2.2.1
     (by decide) rfl⟩

/-- C6: the synchronous response of a successful registration carries only
the aggregate summary: `qr_code_id` is the empty string, `qr_code_url` is
`none`, `ticket_quantity` and `total_price` are the aggregates, and two runs
differing only in the generated codes produce identical responses. -/
theorem c6_response_omits_codes (env : Env) (codes2 : Nat → String)
    (eid : String) (creator : Option String) (req : RegRequest) (s : SysState)
    (p : ℚ)
    (hres : resolvePrice s.tiers eid req.food_option req.payment_mode
      req.ticket_quantity = .ok p)
    (hup : ∀ k, env.uploadOk k = true) (hins : ∀ i, env.insertOk i = true)
    (hN : req.ticket_quantity ≠ 0) :
    (register env eid creator req s).1
      = (register { env with codes := codes2 } eid creator req s).1 ∧
    (register env eid creator req s).1
      = .ok (summaryRow req eid creator env.now p s.nextId) ∧
    (summaryRow req eid creator env.now p s.nextId).qr_code_id = "" ∧
    (summaryRow req eid creator env.now p s.nextId).qr_code_url = none ∧
    (summaryRow req eid creator env.now p s.nextId).ticket_quantity
      = req.ticket_quantity ∧
    (summaryRow req eid creator env.now p s.nextId).total_price
      = p * req.ticket_quantity := by
  have h1 := register_allOk env eid creator req s p hres hup hins hN
  have h2 := register_allOk { env with codes := codes2 } eid creator req s p
    hres hup hins hN
  rw [h1, h2]
  exact ⟨rfl, rfl, rfl, rfl, rfl, rfl⟩

/-- Witness for C6: the concrete 2-ticket registration produces the same
response under a different code generator. -/
theorem c6_response_omits_codes_witness :
    (register faultFreeEnv "e1" none exReq exState).1
      = (register { faultFreeEnv with codes := fun k => "z" ++ toString k }
          "e1" none exReq exState).1 ∧
    (register faultFreeEnv "e1" none exReq exState).1
      = .ok (summaryRow exReq "e1" none 7
          (exTier1.price_per_ticket + surchargeOf exReq.payment_mode)
          exState.nextId) := by
  have h := c6_response_omits_codes faultFreeEnv (fun k => "z" ++ toString k)
    "e1" none exReq exState
    (exTier1.price_per_ticket + surchargeOf exReq.payment_mode)
    (resolvePrice_of_findTier _ _ _ _ _ _ (by rfl))
    (fun _ => rfl) (fun _ => rfl) (by decide)
  exact ⟨h.1, h.2.1⟩

/-- C7: a tier-creation request whose inclusive range overlaps an existing
tier of the same event (in particular one with the same food option) is
rejected with a 400 and inserts nothing; consequently tier creation
preserves, over any sequence of creations, the invariant that no two tiers
of the same event and food option have overlapping ranges. -/
theorem c7_tier_overlap_rejected (s : SysState) (req : TierCreate)
    (dfFood : FoodOption) (dfActive : Bool)
    (reqs : List (TierCreate × FoodOption × Bool)) :
    ((∃ t ∈ s.tiers, t.event_id = req.event_id ∧
        req.quantity_from ≤ t.quantity_to ∧ t.quantity_from ≤ req.quantity_to) →
      create_pricing_tier dfFood dfActive s req = (.error 400, s)) ∧
    (TiersInvariant s.tiers →
      TiersInvariant (create_pricing_tier dfFood dfActive s req).2.tiers) ∧
    (TiersInvariant s.tiers →
      TiersInvariant ((reqs.foldl
        (fun st r => (create_pricing_tier r.2.1 r.2.2 st r.1).2) s).tiers)) :=
  ⟨create_tier_rejects_overlap dfFood dfActive s req,
   create_tier_preserves_invariant dfFood dfActive s req,
   create_tier_fold_preserves s reqs⟩

/-- Witness for C7: the concrete range 3-8 overlapping the existing 1-5 tier
is rejected, and a creation sequence preserves the invariant. -/
theorem c7_tier_overlap_rejected_witness :
    create_pricing_tier FoodOption.with_food true exState c7Req
      = (.error 400, exState) ∧
    TiersInvariant ((([(c7Req, FoodOption.with_food, true)] :
        List (TierCreate × FoodOption × Bool)).foldl
      (fun st r => (create_pricing_tier r.2.1 r.2.2 st r.1).2) exState).tiers) :=
  ⟨(c7_tier_overlap_rejected exState c7Req .with_food true []).1 (by decide),
   (c7_tier_overlap_rejected exState c7Req .with_food true
      [(c7Req, .with_food, true)]).2.2 (by decide)⟩

/-- C8: the leaderboard is a stable sort on ticket count descending (it is a
permutation, sorted, and preserves the relative order of equal counts), and
the rank loop gives the first entry rank 1, equal counts equal ranks, and an
entry strictly below its predecessor the rank equal to its 1-based
position. -/
theorem c8_leaderboard_ranks (l : List LBEntry) :
    List.Perm (lbSort l) l ∧
    List.Sorted lbRel (lbSort l) ∧
    (∀ c, (lbSort l).filter (fun e => e.tickets_sold == c)
        = l.filter (fun e => e.tickets_sold == c)) ∧
    (leaderboardRanks l).map Prod.fst = lbSort l ∧
    (∀ h0 : 0 < (leaderboardRanks l).length,
      ((leaderboardRanks l).get ⟨0, h0⟩).2 = 1) ∧
    (∀ i j (hi : i < (leaderboardRanks l).length)
        (hj : j < (leaderboardRanks l).length),
      ((leaderboardRanks l).get ⟨i, hi⟩).1.tickets_sold
        = ((leaderboardRanks l).get ⟨j, hj⟩).1.tickets_sold →
      ((leaderboardRanks l).get ⟨i, hi⟩).2
        = ((leaderboardRanks l).get ⟨j, hj⟩).2) ∧
    (∀ i (hi : i + 1 < (leaderboardRanks l).length),
      ((leaderboardRanks l).get ⟨i + 1, hi⟩).1.tickets_sold
        < ((leaderboardRanks l).get ⟨i, Nat.lt_of_succ_lt hi⟩).1.tickets_sold →
      ((leaderboardRanks l).get ⟨i + 1, hi⟩).2 = i + 2) := by
  refine ⟨lbSort_perm l, lbSort_sorted l, fun c => lbSort_stable l c, ?_, ?_, ?_, ?_⟩
  · rw [leaderboardRanks, assignRanks_closed _ (lbSort_sorted l), List.map_map]
    rw [show (Prod.fst ∘ fun e : LBEntry =>
      (e, 1 + countGt (lbSort l) e.tickets_sold)) = id from rfl, List.map_id]
  · intro h0
    have h02 : 0 < (lbSort l).length := by
      rwa [leaderboardRanks_length] at h0
    rw [leaderboardRanks_get l 0 h0 h02, countGt_head_zero _ (lbSort_sorted l) h02]
  · intro i j hi hj
    have hi2 : i < (lbSort l).length := by rwa [leaderboardRanks_length] at hi
    have hj2 : j < (lbSort l).length := by rwa [leaderboardRanks_length] at hj
    rw [leaderboardRanks_get l i hi hi2, leaderboardRanks_get l j hj hj2]
    intro hcount
    simp only at hcount ⊢
    rw [hcount]
  · intro i hi
    have hi2 : i + 1 < (lbSort l).length := by
      rwa [leaderboardRanks_length] at hi
    have hi3 : i < (lbSort l).length := Nat.lt_of_succ_lt hi2
    rw [leaderboardRanks_get l (i+1) hi hi2,
      leaderboardRanks_get l i (Nat.lt_of_succ_lt hi) hi3]
    intro hlt
    simp only at hlt ⊢
    rw [countGt_strict_decrease (lbSort l) (lbSort_sorted l) i hi2 hlt]
    omega

/-- Witness for C8: on [a:5, b:3, c:5] the sorted order is [a, c, b] with
ranks 1, 1, 3. -/
theorem c8_leaderboard_ranks_witness :
    ((leaderboardRanks lbEx).get ⟨0, by decide⟩).2 = 1 ∧
    ((leaderboardRanks lbEx).get ⟨0, by decide⟩).2
      = ((leaderboardRanks lbEx).get ⟨1, by decide⟩).2 ∧
    ((leaderboardRanks lbEx).get ⟨2, by decide⟩).2 = 3 := by
  have h := c8_leaderboard_ranks lbEx
  refine ⟨h.2.2.2.2.1 (by decide), ?_, ?_⟩
  · exact h.2.2.2.2.2.1 0 1 (by decide) (by decide) (by rfl)
  · exact h.2.2.2.2.2.2 1 (by decide) (by decide)

/-- C9 (counterexample): at a concrete failing datastore query, the listing
and statistics reads do not propagate the error: they return the swallowed
defaults — an empty page with total 0, and the zeroed fallback statistics
dict. -/
theorem c9_errors_swallowed_cex :
    get_attendees (.error ⟨"db down"⟩) (.ok []) (.ok []) (.ok []) none none none
      50 0 none "desc" = ([], 0) ∧
    get_attendees (.error ⟨"db down"⟩) (.ok []) (.ok []) (.ok []) (some true)
      none (some FoodOption.with_food) 10 0 (some "name") "asc" = ([], 0) ∧
    get_event_stats (.error ⟨"db down"⟩) =
      { total_registered := 0, total_checked_in := 0, checked_in_percentage := 0,
        total_tickets_sold := none, total_revenue := none, revenue_cash := none,
        revenue_zelle := none, recent_checkins := [] } :=
  ⟨rfl, rfl, rfl⟩

/-- C9 (amended): the reporting reads mutate nothing (they are pure functions
of the query results in this embedding), but a raised datastore error is
swallowed, not propagated: `get_attendees` returns `([], 0)` in both its
branches and `get_event_stats` returns the zeroed fallback dict. -/
theorem c9_errors_swallowed (e : DbError)
    (nameQ emailQ mainQ : Except DbError (List AttendeeRow))
    (usersQ : Except DbError (List UserRow)) (checked_in : Option Bool)
    (food_option : Option FoodOption) (limit offset : Nat)
    (sort_by : Option String) (sort_dir : String) (str : String)
    (hstr : str ≠ "") :
    get_attendees (.error e) nameQ emailQ usersQ checked_in none food_option
      limit offset sort_by sort_dir = ([], 0) ∧
    get_attendees mainQ (.error e) emailQ usersQ checked_in (some str)
      food_option limit offset sort_by sort_dir = ([], 0) ∧
    get_event_stats (.error e) =
      { total_registered := 0, total_checked_in := 0, checked_in_percentage := 0,
        total_tickets_sold := none, total_revenue := none, revenue_cash := none,
        revenue_zelle := none, recent_checkins := [] } := by
  refine ⟨rfl, ?_, rfl⟩
  unfold get_attendees
  rw [if_pos (show (Option.some str).getD "" ≠ "" from hstr)]

/-- Witness for C9's amended theorem: a failing name-search query yields the
empty default. -/
theorem c9_errors_swallowed_witness :
    get_attendees (.ok []) (.error ⟨"boom"⟩) (.ok []) (.ok []) none (some "x")
      none 50 0 none "desc" = ([], 0) :=
  (c9_errors_swallowed ⟨"boom"⟩ (.error ⟨"boom"⟩) (.ok []) (.ok []) (.ok [])
    none none 50 0 none "desc" "x" (by decide)).2.1

/-- C10: lookup and the check-in update try the attendees table first and
fall back to the guests table; the endpoint returns 404 exactly when the
code is in neither table; and a result served from the guests table carries
`is_guest = true`. -/
theorem c10_guest_fallback (s : SysState) (qr : String) (now : Nat) :
    (get_attendee_by_qr_id s qr = none ↔
      (s.attendees.find? (fun r => r.qr_code_id == qr) = none ∧
       s.guests.find? (fun r => r.qr_code_id == qr) = none)) ∧
    (∀ att, s.attendees.find? (fun r => r.qr_code_id == qr) = some att →
      get_attendee_by_qr_id s qr = some att) ∧
    (∀ g, s.attendees.find? (fun r => r.qr_code_id == qr) = none →
      s.guests.find? (fun r => r.qr_code_id == qr) = some g →
      get_attendee_by_qr_id s qr = some { g with is_guest := true } ∧
      (get_attendee_by_qr_id s qr).any (fun r => r.is_guest) = true) ∧
    ((checkin_attendee now s qr).1 = .error 404 ↔
      get_attendee_by_qr_id s qr = none) ∧
    (∀ g, s.attendees.find? (fun r => r.qr_code_id == qr) = none →
      s.guests.find? (fun r => r.qr_code_id == qr) = some g →
      (update_attendee_checkin now s qr).1 =
        some { checkinData now g with is_guest := true }) := by
  refine ⟨?_, ?_, ?_, ?_, ?_⟩
  · unfold get_attendee_by_qr_id
    cases hA : s.attendees.find? (fun r => r.qr_code_id == qr) with
    | some a => simp
    | none =>
      cases hG : s.guests.find? (fun r => r.qr_code_id == qr) with
      | some g => simp
      | none => simp
  · intro att hfind
    exact get_attendee_found s qr att hfind
  · intro g hA hG
    refine ⟨get_attendee_guest s qr g hA hG, ?_⟩
    rw [get_attendee_guest s qr g hA hG]
    rfl
  · unfold checkin_attendee
    cases hget : get_attendee_by_qr_id s qr with
    | none => simp
    | some att =>
      by_cases hc : att.is_checked_in = true
      · simp [hc]
      · simp only [hc, if_false]
        cases hupd : update_attendee_checkin now s qr with
        | mk fst snd =>
          cases fst with
          | none => simp
          | some upd => simp
  · intro g hA hG
    rw [update_checkin_guest now s qr g hA hG]

/-- Witness for C10: code `G1` lives only in the guests table and is served
with the guest marker; an unknown code 404s. -/
theorem c10_guest_fallback_witness :
    get_attendee_by_qr_id guestOnlyState "G1"
      = some { guestRow with is_guest := true } ∧
    (update_attendee_checkin 6 guestOnlyState "G1").1
      = some { checkinData 6 guestRow with is_guest := true } ∧
    (checkin_attendee 0 emptyState "ZZ").1 = .error 404 := by
  have h := c10_guest_fallback guestOnlyState "G1" 6
  have h2 := c10_guest_fallback emptyState "ZZ" 0
  exact ⟨(h.2.2.1 guestRow rfl rfl).1, h.2.2.2.2 guestRow rfl rfl,
    (h2.2.2.2.1).mpr rfl⟩

end ISOReg
